import Mathlib

/-!
Verification of the product research tool (product_research_tool.py, v2.0
section) against its specification.  Python floats are modelled as exact
rationals, pandas DataFrames as column-major tables of rationals, and
fallible fetchers as `Except String` values.
-/

namespace ProductResearch

/-- Models the per-character effect of `keyword.replace(" ", "_")` at
`run_research` line 535. -/
def spaceToUscore (c : Char) : Char :=
  if c = ' ' then '_' else c

/-- Models `keyword.replace(" ", "_")` (line 535): every space character is
replaced by an underscore, all other characters kept unchanged. -/
def normalizeKeyword (s : String) : String :=
  ⟨s.data.map spaceToUscore⟩

/-- Whitespace set used by the claimed normalization (spec section 3). -/
def isWsChar (c : Char) : Bool :=
  (c == ' ') || (c == '\t') || (c == '\n') || (c == '\r')

/-- The normalization as the claim words it: lower-case the keyword and
replace every whitespace character with an underscore.  Stated from the
spec for comparison with `normalizeKeyword`, which is the code. -/
def claimedNormalize (s : String) : String :=
  ⟨(s.data.map Char.toLower).map (fun c => if isWsChar c then '_' else c)⟩

/-- Arithmetic mean of a list of rationals; models `pandas.Series.mean`
on a nonempty numeric series. -/
def mean (l : List ℚ) : ℚ :=
  l.sum / (l.length : ℚ)

/-- Floor of a rational, via flooring integer division of numerator by
denominator. -/
def ratFloor (q : ℚ) : ℤ :=
  Int.fdiv q.num (q.den : ℤ)

/-- Round to the nearest integer, ties to even; models Python round. -/
def roundHalfEven (q : ℚ) : ℤ :=
  let f := ratFloor q
  let r := q - (f : ℚ)
  if r < 1/2 then f
  else if (1 : ℚ)/2 < r then f + 1
  else if f % 2 = 0 then f else f + 1

/-- Models Python `round(x, 2)`. -/
def round2 (q : ℚ) : ℚ :=
  ((roundHalfEven (q * 100) : ℤ) : ℚ) / 100

/-- Models Python `int(x)`: truncation toward zero. -/
def pyInt (q : ℚ) : ℤ :=
  Int.tdiv q.num (q.den : ℤ)

/-- Models `df.tail(n)`: the last `n` rows (all of them when fewer). -/
def tailN (n : ℕ) (l : List ℚ) : List ℚ :=
  l.drop (l.length - n)

/-- The value window the code uses for the previous year:
`interest.tail(104).head(52)` (line 494). -/
def prevWindow (l : List ℚ) : List ℚ :=
  (tailN 104 l).take 52

/-- The 52 values immediately before the last 52, as the spec words the
previous-year window.  Stated from the spec for comparison with
`prevWindow`, which is the code. -/
def prior52 (l : List ℚ) : List ℚ :=
  tailN 52 (l.take (l.length - 52))

/-- Models `prev_year or 1e-6` (line 495): Python `or` takes the fallback
exactly when the first operand is falsy, i.e. 0.0. -/
def pyOr (x fallback : ℚ) : ℚ :=
  if x = 0 then fallback else x

/-- The arithmetic core of `demand_score` (lines 489-495) applied to the
value column of the interest frame. -/
def demandOnSeries (s : List ℚ) : ℚ :=
  if s = [] then 0
  else
    round2 ((mean (tailN 52 s) - mean (prevWindow s)) /
      pyOr (mean (prevWindow s)) (1/1000000))

/-- Insertion sort of a rational series, ascending. -/
def sortAsc (l : List ℚ) : List ℚ :=
  List.insertionSort (· ≤ ·) l

/-- Models `pandas.Series.median` on a nonempty numeric series: middle
order statistic for odd length, mean of the two middle order statistics
for even length. -/
def sampleMedian (l : List ℚ) : ℚ :=
  let s := sortAsc l
  let n := l.length
  if n % 2 = 1 then s.getD (n / 2) 0
  else (s.getD (n / 2 - 1) 0 + s.getD (n / 2) 0) / 2

/-- The arithmetic core of `competition_gauge` (line 502):
`int(amazon_df["reviews"].median())`. -/
def gaugeOnSeries (l : List ℚ) : ℤ :=
  pyInt (sampleMedian l)

/-- A pandas DataFrame of numeric data, column-major: `data.get? i` is the
column named `cols.get? i`. -/
structure DF where
  cols : List String
  data : List (List ℚ)
  deriving DecidableEq

/-- Models `df.empty`: true when the frame has no rows (or no columns). -/
def DF.isEmpty (df : DF) : Bool :=
  df.data.all List.isEmpty

/-- A rectangular frame: one data column per column name. -/
def DF.wf (df : DF) : Prop :=
  df.cols.length = df.data.length

/-- Models `pd.DataFrame()`: a frame with no columns and no rows. -/
def DF.mk0 : DF :=
  ⟨[], []⟩

/-- Models `df[name]`: the first column carrying `name`, if any. -/
def colVals (df : DF) (name : String) : Option (List ℚ) :=
  (df.cols.zip df.data).lookup name

/-- Models `demand_score` (lines 489-495).  An `interest` frame with fewer
than two columns makes `interest.columns[1]` raise IndexError, which we
model as an `Except.error`. -/
def demand_score (df : DF) : Except String ℚ :=
  if df.isEmpty then .ok 0
  else
    match df.cols.get? 1 with
    | none => .error "IndexError"
    | some name =>
      match colVals df name with
      | some s => .ok (demandOnSeries s)
      | none => .error "KeyError"

/-- Models `competition_gauge` (lines 498-502).  A nonempty frame without
a `reviews` column makes `amazon_df["reviews"]` raise KeyError, which we
model as an `Except.error`. -/
def competition_gauge (df : DF) : Except String ℤ :=
  if df.isEmpty then .ok 0
  else
    match colVals df "reviews" with
    | some s => .ok (gaugeOnSeries s)
    | none => .error "KeyError"

deriving instance DecidableEq for Except

/-- The outcomes of the five external fetchers for one keyword, each
either a payload or a raised exception.  `google` models
`fetch_google_trends` (interest frame, rising frame); `amazon` models
`scrape_amazon_bestsellers`; `tiktok` models the request inside
`scrape_tiktok_trending` before its own try/except. -/
structure Fetchers where
  google : Except String (DF × DF)
  amazon : Except String DF
  ebay : Except String (List String)
  aliexpress : Except String DF
  tiktok : Except String (List String)
  deriving DecidableEq

/-- Models `scrape_tiktok_trending` (lines 475-483): any exception from
the request is caught and an empty list returned. -/
def scrape_tiktok_trending (f : Fetchers) : List String :=
  match f.tiktok with
  | .ok l => l
  | .error _ => []

/-- The data row of the one-row summary frame built at line 572 (the
wall-clock timestamp column is not modelled). -/
structure Summary where
  keyword : String
  demand : ℚ
  competition : ℤ
  deriving DecidableEq

/-- The column names of the summary frame built at line 572. -/
def summaryColumns : List String :=
  ["keyword", "demand_score", "competition_gauge", "timestamp"]

/-- Result of a completed `run_research`: the report directory it created,
the artifact paths it wrote in order, and the summary row it persisted. -/
structure RunOutcome where
  reportDir : String
  writes : List String
  summary : Summary
  deriving DecidableEq

/-- Models the truthiness test `if amazon_url and ...` (line 547): `None`
and the empty string are falsy. -/
def pyTruthy : Option String → Bool
  | none => false
  | some s => !s.isEmpty

/-- Exception propagation: sequencing of fallible steps. -/
def ebind : Except String α → (α → Except String β) → Except String β
  | .error e, _ => .error e
  | .ok a, g => g a

/-- Mapping over a fallible step. -/
def emap (g : α → β) : Except String α → Except String β
  | .error e => .error e
  | .ok a => .ok (g a)

/-- Models `run_research` (lines 533-575).  The report directory is
created unconditionally, each requested source is fetched with no
exception handling (only tiktok catches internally), artifacts are
written per source, and the summary row is assembled and written last. -/
def run_research (keyword : String) (amazonUrl : Option String)
    (sources : List String) (f : Fetchers) : Except String RunOutcome :=
  let dir := "reports/" ++ normalizeKeyword keyword
  ebind
    (if sources.contains "google" then
      emap (fun ir => (ir.1,
        [dir ++ "/google_interest.csv", dir ++ "/google_rising.csv"])) f.google
     else .ok (DF.mk0, [])) fun gi =>
  ebind
    (if pyTruthy amazonUrl && sources.contains "amazon" then
      emap (fun adf => (adf, [dir ++ "/amazon_bestsellers.csv"])) f.amazon
     else .ok (DF.mk0, [])) fun am =>
  ebind
    (if sources.contains "ebay" then
      emap (fun _ => [dir ++ "/ebay_trending.csv"]) f.ebay
     else .ok []) fun ew =>
  ebind
    (if sources.contains "aliexpress" then
      emap (fun _ => [dir ++ "/aliexpress_top.csv"]) f.aliexpress
     else .ok []) fun aw =>
  let tw := if sources.contains "tiktok" then
      let _ := scrape_tiktok_trending f
      [dir ++ "/tiktok_trending.csv"]
    else []
  ebind (demand_score gi.1) fun d =>
  ebind (competition_gauge am.1) fun c =>
  .ok ⟨dir, gi.2 ++ am.2 ++ ew ++ aw ++ tw ++ [dir ++ "/summary.csv"],
       ⟨keyword, d, c⟩⟩

/-- The source ids `run_research` consults (lines 539, 547, 554, 559,
564). -/
def knownSourceIds : List String :=
  ["google", "amazon", "ebay", "aliexpress", "tiktok"]

/-- The keyword loop inside the scheduler task (lines 587-591): each
keyword is researched in order and its summary path collected as an
attachment; an exception anywhere propagates. -/
def runKeywords (keywords : List String) (amazonUrl : Option String)
    (sources : List String) (f : String → Fetchers) :
    Except String (List String) :=
  match keywords with
  | [] => .ok []
  | kw :: rest =>
    ebind (run_research kw amazonUrl sources (f kw)) fun out =>
    ebind (runKeywords rest amazonUrl sources f) fun atts =>
    .ok ((out.reportDir ++ "/summary.csv") :: atts)

/-- Result of one scheduler tick: attachments collected, number of body
sections, and how many times the digest email was dispatched. -/
structure TickOutcome where
  attachments : List String
  bodySections : ℕ
  digestsSent : ℕ
  deriving DecidableEq

/-- Models the `task` closure inside `schedule_jobs` (lines 584-595): run
every keyword, then call `email_digest` exactly once. -/
def schedulerTask (keywords : List String) (amazonUrl : Option String)
    (sources : List String) (f : String → Fetchers) :
    Except String TickOutcome :=
  ebind (runKeywords keywords amazonUrl sources f) fun atts =>
  .ok ⟨atts, atts.length, 1⟩

/-! Section: Concrete fixtures used by counterexamples and witnesses -/

/-- Fetchers that all raise; used where no fetcher should be consulted. -/
def fAllErr : Fetchers :=
  ⟨.error "unused", .error "unused", .error "unused", .error "unused",
   .error "unused"⟩

/-- Fetchers where only the amazon fetch raises. -/
def fAmzErr : Fetchers :=
  ⟨.ok (DF.mk0, DF.mk0), .error "ConnectionError", .ok [], .ok DF.mk0,
   .ok []⟩

/-- Fetchers where only the google fetch raises. -/
def fGoogleErr : Fetchers :=
  ⟨.error "network", .ok DF.mk0, .ok [], .ok DF.mk0, .ok []⟩

/-- Fetchers that all succeed with empty payloads. -/
def fAllOk : Fetchers :=
  ⟨.ok (DF.mk0, DF.mk0), .ok DF.mk0, .ok [], .ok DF.mk0, .ok []⟩

/-- A nonempty frame with one column, named neither by position 1 nor
`reviews`: malformed input for both metric functions. -/
def dfNoReviews : DF :=
  ⟨["foo"], [[5]]⟩

/-- The trend interest frame of the spec scenario: 104 weekly points of
constant value 50 for the keyword column (column 1). -/
def dfYogaTrend : DF :=
  ⟨["date", "yoga mat"],
   [(List.range 104).map (fun i => (i : ℚ)), List.replicate 104 50]⟩

/-- A marketplace frame whose `reviews` column is [10, 20, 30, 40, 50]. -/
def dfYogaAmazon : DF :=
  ⟨["rank", "reviews"], [[1, 2, 3, 4, 5], [10, 20, 30, 40, 50]]⟩

/-! Section: Helper lemmas -/

theorem ebind_ok {x : Except String α} {k : α → Except String β}
    {b : β} : ebind x k = .ok b ↔ ∃ a, x = .ok a ∧ k a = .ok b := by
  cases x <;> simp [ebind]

theorem contains_filter (p : String → Bool) (l : List String) (a : String)
    (h : p a = true) : (l.filter p).contains a = l.contains a := by
  induction l with
  | nil => simp
  | cons b t ih =>
    by_cases hb : p b = true
    · simp only [List.filter_cons, hb, if_true, List.contains_cons, ih]
    · have hne : a ≠ b := fun hab => hb (hab ▸ h)
      simp [List.filter_cons, hb, List.contains_cons, ih, hne, h]

theorem lookup_zip_of_mem {cs : List String} {ds : List (List ℚ)}
    {n : String} (hlen : cs.length = ds.length) (hmem : n ∈ cs) :
    ∃ v, (cs.zip ds).lookup n = some v := by
  induction cs generalizing ds with
  | nil => cases hmem
  | cons c ct ih =>
    cases ds with
    | nil => cases hlen
    | cons d dt =>
      by_cases hc : n = c
      · exact ⟨d, by simp [List.lookup, hc]⟩
      · have hmem' : n ∈ ct := by
          cases hmem with
          | head => exact absurd rfl hc
          | tail _ h => exact h
        have hne : (n == c) = false := by
          cases hnc : n == c
          · rfl
          · exact absurd (eq_of_beq hnc) hc
        obtain ⟨v, hv⟩ := ih (by simpa using hlen) hmem'
        refine ⟨v, ?_⟩
        simpa [List.lookup, hne, List.zip] using hv

theorem lookup_zip_of_not_mem {cs : List String} {ds : List (List ℚ)}
    {n : String} (hmem : n ∉ cs) : (cs.zip ds).lookup n = none := by
  induction cs generalizing ds with
  | nil => simp
  | cons c ct ih =>
    cases ds with
    | nil => simp
    | cons d dt =>
      have hne : (n == c) = false := by
        cases hnc : n == c
        · rfl
        · exact absurd (eq_of_beq hnc ▸ List.mem_cons_self c ct) hmem
      simp only [List.zip_cons_cons, List.lookup, hne]
      exact ih (fun h => hmem (List.mem_cons_of_mem c h))

theorem spaceToUscore_idem (c : Char) :
    spaceToUscore (spaceToUscore c) = spaceToUscore c := by
  by_cases h : c = ' ' <;> simp [spaceToUscore, h]

theorem tailN_of_length_le {l : List ℚ} {n : ℕ} (h : l.length ≤ n) :
    tailN n l = l := by
  simp [tailN, Nat.sub_eq_zero_of_le h]

theorem prevWindow_of_length_le {l : List ℚ} (h : l.length ≤ 52) :
    prevWindow l = l := by
  rw [prevWindow, tailN_of_length_le (le_trans h (by norm_num)),
    List.take_of_length_le h]

theorem prevWindow_eq_prior52 {l : List ℚ} (h : 104 ≤ l.length) :
    prevWindow l = prior52 l := by
  rw [prevWindow, prior52, tailN, tailN, List.length_take,
    Nat.min_eq_left (Nat.sub_le _ _), List.drop_take]
  have h1 : l.length - 52 - (l.length - 52 - 52) = 52 := by omega
  have h2 : l.length - 104 = l.length - 52 - 52 := by omega
  rw [h1, h2]

section RatEval

attribute [local semireducible] Rat.mul Rat.add Rat.sub Rat.inv

set_option maxRecDepth 10000

theorem round2_zero : round2 0 = 0 := by decide

theorem demand_replicate104 : demandOnSeries (List.replicate 104 50) = 0 := by
  decide

theorem gauge_yoga : competition_gauge dfYogaAmazon = .ok 30 := by decide

theorem norm_yoga_mat : normalizeKeyword "Yoga Mat" = "Yoga_Mat" := by decide

theorem claimed_norm_yoga_mat : claimedNormalize "Yoga Mat" = "yoga_mat" := by
  decide

end RatEval

theorem mem_of_contains {l : List String} {a : String}
    (h : l.contains a = true) : a ∈ l := by
  simpa using h

theorem demand_score_mk0 : demand_score DF.mk0 = .ok 0 := rfl

theorem competition_gauge_mk0 : competition_gauge DF.mk0 = .ok 0 := rfl

theorem runKeywords_ok {kws : List String} {url : Option String}
    {srcs : List String} {f : String → Fetchers}
    (h : ∀ kw ∈ kws, ∃ out, run_research kw url srcs (f kw) = .ok out) :
    ∃ atts, runKeywords kws url srcs f = .ok atts := by
  induction kws with
  | nil => exact ⟨[], rfl⟩
  | cons kw rest ih =>
    obtain ⟨out, hout⟩ := h kw (List.mem_cons_self kw rest)
    obtain ⟨atts, hatts⟩ := ih (fun k hk => h k (List.mem_cons_of_mem kw hk))
    exact ⟨(out.reportDir ++ "/summary.csv") :: atts,
      by simp [runKeywords, hout, hatts, ebind]⟩

/-! Section: Claim theorems -/

/-- C9: the keyword normalization used to build report paths,
`keyword.replace(" ", "_")`, is idempotent: applying it twice gives the
same string as applying it once. -/
theorem c9_normalize_idempotent (s : String) :
    normalizeKeyword (normalizeKeyword s) = normalizeKeyword s := by
  have hfun : spaceToUscore ∘ spaceToUscore = spaceToUscore :=
    funext spaceToUscore_idem
  simp [normalizeKeyword, List.map_map, hfun]

/-- C10: for every nonempty trend series of at most 52 points,
`demand_score` returns exactly 0.0, because `tail(52)` and
`tail(104).head(52)` select the same rows, making the growth numerator
zero. -/
theorem c10_short_series_zero (s : List ℚ) (h1 : s ≠ [])
    (h2 : s.length ≤ 52) : demandOnSeries s = 0 := by
  rw [demandOnSeries, if_neg h1, tailN_of_length_le h2,
    prevWindow_of_length_le h2, sub_self, zero_div, round2_zero]

/-- C10 witness: a concrete 10-point series evaluates to 0. -/
theorem c10_witness : demandOnSeries (List.replicate 10 7) = 0 :=
  c10_short_series_zero (List.replicate 10 7) (by decide) (by decide)

/-- C5: `demand_score` returns 0.0 on the empty series; on a series long
enough that the 52 values before the last 52 exist (length at least 104),
it returns the mean of the last 52 values minus the mean of the 52 values
before those, divided by the prior mean (with 1e-6 substituted when the
prior mean is zero), rounded to 2 decimal places; and on 104 identical
points of value 50 it returns exactly 0.0. -/
theorem c5_demand_score_formula :
    demandOnSeries [] = 0 ∧
    (∀ s : List ℚ, 104 ≤ s.length →
      demandOnSeries s =
        round2 ((mean (tailN 52 s) - mean (prior52 s)) /
          pyOr (mean (prior52 s)) (1/1000000))) ∧
    demandOnSeries (List.replicate 104 50) = 0 := by
  refine ⟨rfl, ?_, demand_replicate104⟩
  intro s hs
  have hne : s ≠ [] := by
    intro h
    rw [h] at hs
    simp at hs
  rw [demandOnSeries, if_neg hne, prevWindow_eq_prior52 hs]

/-- C5 witness: the formula clause applied to the concrete 104-point
constant series. -/
theorem c5_witness :
    demandOnSeries (List.replicate 104 50) =
      round2 ((mean (tailN 52 (List.replicate 104 50)) -
        mean (prior52 (List.replicate 104 50))) /
        pyOr (mean (prior52 (List.replicate 104 50))) (1/1000000)) :=
  c5_demand_score_formula.2.1 (List.replicate 104 50) (by decide)

/-- C6: `competition_gauge` returns 0 on a frame with no rows; on a
nonempty frame it returns the conventional median of the `reviews`
column truncated to an integer, where for even row counts the median is
the mean of the two middle order statistics; and on reviews
[10, 20, 30, 40, 50] it returns 30. -/
theorem c6_competition_gauge_median :
    (∀ df : DF, df.isEmpty = true → competition_gauge df = .ok 0) ∧
    (∀ (df : DF) (s : List ℚ), df.isEmpty = false →
      colVals df "reviews" = some s → s.length % 2 = 0 →
      competition_gauge df =
        .ok (pyInt (((sortAsc s).getD (s.length / 2 - 1) 0 +
          (sortAsc s).getD (s.length / 2) 0) / 2))) ∧
    competition_gauge dfYogaAmazon = .ok 30 := by
  refine ⟨?_, ?_, gauge_yoga⟩
  · intro df h
    simp [competition_gauge, h]
  · intro df s hne hcol heven
    have hodd : ¬s.length % 2 = 1 := by omega
    simp [competition_gauge, hne, hcol, gaugeOnSeries, sampleMedian, hodd]

/-- C6 witness: the even-count clause applied to a concrete four-row
frame: the median of [10, 20, 30, 41] is 25, truncated to 25. -/
theorem c6_witness :
    competition_gauge ⟨["reviews"], [[10, 20, 30, 41]]⟩ =
      .ok (pyInt (((sortAsc [10, 20, 30, 41]).getD 1 0 +
        (sortAsc [10, 20, 30, 41]).getD 2 0) / 2)) :=
  c6_competition_gauge_median.2.1 ⟨["reviews"], [[10, 20, 30, 41]]⟩
    [10, 20, 30, 41] (by decide) (by decide) (by decide)

/-- C7 counterexample: the metric functions are not total on malformed
input: on a nonempty frame with a single column (so no value column at
position 1 and no `reviews` column), `demand_score` raises IndexError and
`competition_gauge` raises KeyError instead of returning a default. -/
theorem c7_counterexample :
    demand_score dfNoReviews = .error "IndexError" ∧
    competition_gauge dfNoReviews = .error "KeyError" :=
  ⟨rfl, rfl⟩

/-- C7 amended: both metric functions return the documented defaults on
empty frames without raising, and succeed on nonempty rectangular frames
that carry the expected column; but on nonempty frames lacking it they
raise (see the counterexample). -/
theorem c7_amended :
    (∀ df : DF, df.isEmpty = true →
      demand_score df = .ok 0 ∧ competition_gauge df = .ok 0) ∧
    (∀ df : DF, df.wf → 2 ≤ df.cols.length →
      ∃ q, demand_score df = .ok q) ∧
    (∀ df : DF, df.wf → "reviews" ∈ df.cols →
      ∃ z, competition_gauge df = .ok z) := by
  refine ⟨?_, ?_, ?_⟩
  · intro df h
    exact ⟨by simp [demand_score, h], by simp [competition_gauge, h]⟩
  · intro df hwf hcols
    by_cases hempty : df.isEmpty
    · exact ⟨0, by simp [demand_score, hempty]⟩
    · have hlt : 1 < df.cols.length := hcols
      have hname : df.cols[1]? = some df.cols[1] :=
        List.getElem?_eq_getElem hlt
      obtain ⟨v, hv⟩ := lookup_zip_of_mem hwf (List.getElem_mem hlt)
      refine ⟨demandOnSeries v, ?_⟩
      simp [demand_score, hempty, colVals, hname, hv]
  · intro df hwf hmem
    by_cases hempty : df.isEmpty
    · exact ⟨0, by simp [competition_gauge, hempty]⟩
    · obtain ⟨v, hv⟩ := lookup_zip_of_mem hwf hmem
      exact ⟨gaugeOnSeries v, by simp [competition_gauge, hempty, colVals, hv]⟩

/-- C7 witness: the success clause applied to the concrete two-column
trend frame. -/
theorem c7_witness : ∃ q, demand_score dfYogaTrend = .ok q :=
  c7_amended.2.1 dfYogaTrend rfl (by decide)

/-- C8 counterexample: for the keyword "Yoga Mat" the directory component
used by `run_research` is "Yoga_Mat" (case preserved, spaces replaced),
while the claimed normalization (lower-case, all whitespace replaced)
yields "yoga_mat", a different directory. -/
theorem c8_counterexample :
    run_research "Yoga Mat" none [] fAllErr =
      .ok ⟨"reports/Yoga_Mat", ["reports/Yoga_Mat/summary.csv"],
        ⟨"Yoga Mat", 0, 0⟩⟩ ∧
    claimedNormalize "Yoga Mat" = "yoga_mat" ∧
    ("Yoga_Mat" : String) ≠ "yoga_mat" :=
  ⟨rfl, claimed_norm_yoga_mat, by decide⟩

/-- C8 amended: the directory component for a keyword is
`keyword.replace(" ", "_")`: only the space character is replaced by an
underscore and case is preserved, as section 4.3 of the spec states. -/
theorem c8_amended (kw : String) (url : Option String)
    (srcs : List String) (f : Fetchers) (out : RunOutcome)
    (h : run_research kw url srcs f = .ok out) :
    out.reportDir = "reports/" ++ normalizeKeyword kw := by
  simp only [run_research, ebind_ok] at h
  obtain ⟨gi, hgi, am, ham, ew, hew, aw, haw, d, hd, c, hc, hfin⟩ := h
  simp only [Except.ok.injEq] at hfin
  subst hfin
  rfl

/-- C8 witness: the amended theorem applied to a concrete completed run
for the keyword "Yoga Mat". -/
theorem c8_witness :
    (⟨"reports/Yoga_Mat", ["reports/Yoga_Mat/summary.csv"],
      ⟨"Yoga Mat", 0, 0⟩⟩ : RunOutcome).reportDir =
      "reports/" ++ normalizeKeyword "Yoga Mat" :=
  c8_amended "Yoga Mat" none [] fAllErr _ rfl

/-- C1 counterexample: a run whose marketplace (amazon) fetch raises does
not complete with a defaulted summary: the exception propagates out of
`run_research` and no summary is produced. -/
theorem c1_counterexample :
    run_research "yoga mat" (some "https://www.amazon.com/Best-Sellers")
      ["amazon"] fAmzErr = .error "ConnectionError" :=
  rfl

/-- C1 amended: `run_research` installs no per-source exception handling:
an error raised by the amazon fetcher propagates and aborts the run (no
summary is persisted); only the tiktok source catches its own fetch
errors, so a tiktok fetch error still lets the run complete. -/
theorem c1_amended :
    (∀ (kw : String) (url : Option String) (srcs : List String)
      (f : Fetchers) (e : String), pyTruthy url = true →
      "amazon" ∈ srcs → "google" ∉ srcs →
      f.amazon = .error e → run_research kw url srcs f = .error e) ∧
    (∀ (kw : String) (f : Fetchers) (e : String), f.tiktok = .error e →
      ∃ out, run_research kw none ["tiktok"] f = .ok out) := by
  constructor
  · intro kw url srcs f e hurl hamz hgoog hf
    simp [run_research, hurl, hamz, hgoog, hf, emap, ebind]
  · intro kw f e _
    exact ⟨⟨"reports/" ++ normalizeKeyword kw,
      ["reports/" ++ normalizeKeyword kw ++ "/tiktok_trending.csv",
       "reports/" ++ normalizeKeyword kw ++ "/summary.csv"],
      ⟨kw, 0, 0⟩⟩, rfl⟩

/-- C1 witness: the propagation clause applied to a concrete run with a
failing amazon fetch. -/
theorem c1_witness :
    run_research "foam roller" (some "https://www.amazon.com/zgbs")
      ["amazon", "ebay"] fAmzErr = .error "ConnectionError" :=
  c1_amended.1 "foam roller" (some "https://www.amazon.com/zgbs")
    ["amazon", "ebay"] fAmzErr "ConnectionError" (by decide) (by decide)
    (by decide) rfl

/-- C2 counterexample: a run requesting only an unknown source id does
not fail with a configuration error: it completes, creates the report
directory, and writes a summary artifact with default metrics. -/
theorem c2_counterexample :
    run_research "kw" none ["bogus-source"] fAllErr =
      .ok ⟨"reports/kw", ["reports/kw/summary.csv"], ⟨"kw", 0, 0⟩⟩ :=
  rfl

/-- C2 amended: `run_research` validates nothing: source ids outside the
known registry are silently ignored (a run behaves exactly as if only the
known ids had been requested), and a run requesting only unknown ids
still creates the report directory and writes a default summary. -/
theorem c2_amended :
    (∀ (kw : String) (url : Option String) (srcs : List String)
      (f : Fetchers),
      run_research kw url srcs f =
        run_research kw url
          (srcs.filter (fun s => knownSourceIds.contains s)) f) ∧
    (∀ (kw : String) (srcs : List String) (f : Fetchers),
      (∀ s ∈ srcs, s ∉ knownSourceIds) →
      run_research kw none srcs f =
        .ok ⟨"reports/" ++ normalizeKeyword kw,
             ["reports/" ++ normalizeKeyword kw ++ "/summary.csv"],
             ⟨kw, 0, 0⟩⟩) := by
  constructor
  · intro kw url srcs f
    have hg := contains_filter (fun s => knownSourceIds.contains s) srcs
      "google" (by decide)
    have ha := contains_filter (fun s => knownSourceIds.contains s) srcs
      "amazon" (by decide)
    have he := contains_filter (fun s => knownSourceIds.contains s) srcs
      "ebay" (by decide)
    have hal := contains_filter (fun s => knownSourceIds.contains s) srcs
      "aliexpress" (by decide)
    have ht := contains_filter (fun s => knownSourceIds.contains s) srcs
      "tiktok" (by decide)
    simp only [run_research, hg, ha, he, hal, ht]
  · intro kw srcs f h
    have hsk : ∀ a : String, a ∈ knownSourceIds → a ∉ srcs :=
      fun a ha hmem => h a hmem ha
    have hg := hsk "google" (by decide)
    have hamz := hsk "amazon" (by decide)
    have he := hsk "ebay" (by decide)
    have hal := hsk "aliexpress" (by decide)
    have ht := hsk "tiktok" (by decide)
    simp [run_research, hg, hamz, he, hal, ht, pyTruthy, ebind,
      demand_score_mk0, competition_gauge_mk0]

/-- C2 witness: a run requesting two unknown ids completes with the
default summary. -/
theorem c2_witness :
    run_research "foam roller" none ["socialX", "videoY"] fAllOk =
      .ok ⟨"reports/foam_roller", ["reports/foam_roller/summary.csv"],
        ⟨"foam roller", 0, 0⟩⟩ :=
  c2_amended.2 "foam roller" ["socialX", "videoY"] fAllOk (by decide)

/-- C3 counterexample: the persisted summary row has only the columns
keyword, demand_score, competition_gauge and timestamp — no
source_statuses entry exists — and a run that requests amazon with no
marketplace URL completes without consulting the amazon fetcher (here it
would raise) and without recording any failure. -/
theorem c3_counterexample :
    summaryColumns.contains "source_statuses" = false ∧
    run_research "padded mat" none ["amazon"] fAllErr =
      .ok ⟨"reports/padded_mat", ["reports/padded_mat/summary.csv"],
        ⟨"padded mat", 0, 0⟩⟩ :=
  ⟨rfl, rfl⟩

/-- C3 amended: when no marketplace URL is supplied the amazon fetcher is
never invoked (the run result is independent of its outcome) and every
completed run carries competition_gauge 0; no per-source status map is
recorded anywhere. -/
theorem c3_amended :
    (∀ (kw : String) (srcs : List String) (f : Fetchers)
      (a b : Except String DF),
      run_research kw none srcs { f with amazon := a } =
        run_research kw none srcs { f with amazon := b }) ∧
    (∀ (kw : String) (srcs : List String) (f : Fetchers)
      (out : RunOutcome), run_research kw none srcs f = .ok out →
      out.summary.competition = 0) := by
  constructor
  · intro kw srcs f a b
    simp [run_research, pyTruthy]
  · intro kw srcs f out h
    simp [run_research, pyTruthy, ebind_ok, competition_gauge_mk0] at h
    obtain ⟨gi, gw, hgoog, ew, hebay, aw, hali, d, hdem, hout⟩ := h
    subst hout
    rfl

/-- C3 witness: the competition-gauge clause applied to a concrete
completed run requesting google and amazon with no URL. -/
theorem c3_witness :
    (⟨"reports/kw3",
      ["reports/kw3/google_interest.csv", "reports/kw3/google_rising.csv",
       "reports/kw3/summary.csv"],
      ⟨"kw3", 0, 0⟩⟩ : RunOutcome).summary.competition = 0 :=
  c3_amended.2 "kw3" ["google", "amazon"] fAllOk _ rfl

/-- C4 counterexample: in a tick over keywords ["a", "b"] where the run
for "a" raises, the tick aborts with that error: no digest is dispatched
and "b" is never researched, contradicting the claim that the digest is
sent exactly once per tick regardless of failures. -/
theorem c4_counterexample :
    schedulerTask ["a", "b"] none ["google"]
      (fun kw => if kw = "a" then fGoogleErr else fAllOk) =
      .error "network" :=
  rfl

/-- C4 amended: the scheduler task has no per-keyword error handling: a
`run_research` failure for the first keyword aborts the whole tick with
that error (remaining keywords are not run and no digest is dispatched);
only when every keyword's run succeeds does the tick complete, and then
the digest is dispatched exactly once. -/
theorem c4_amended :
    (∀ (kw : String) (rest : List String) (url : Option String)
      (srcs : List String) (f : String → Fetchers) (e : String),
      run_research kw url srcs (f kw) = .error e →
      schedulerTask (kw :: rest) url srcs f = .error e) ∧
    (∀ (kws : List String) (url : Option String) (srcs : List String)
      (f : String → Fetchers),
      (∀ kw ∈ kws, ∃ out, run_research kw url srcs (f kw) = .ok out) →
      ∃ t, schedulerTask kws url srcs f = .ok t ∧ t.digestsSent = 1) := by
  constructor
  · intro kw rest url srcs f e h
    simp [schedulerTask, runKeywords, h, ebind]
  · intro kws url srcs f h
    obtain ⟨atts, hatts⟩ := runKeywords_ok h
    exact ⟨⟨atts, atts.length, 1⟩, by simp [schedulerTask, hatts, ebind],
      rfl⟩

/-- C4 witness: the abort clause applied to a concrete tick whose first
keyword fails with a network error. -/
theorem c4_witness :
    schedulerTask ["x", "y"] none ["google"] (fun _ => fGoogleErr) =
      .error "network" :=
  c4_amended.1 "x" ["y"] none ["google"] (fun _ => fGoogleErr) "network"
    rfl

end ProductResearch
